import Mathlib

/-!
Shallow embedding of `src/bot.js` (felixrieseberg/case-study-bot).

The bot is a set of callback-driven functions over a forge (GitHub) API
client.  Each function is embedded as a pure Lean function from its inputs
(and, where the source reads the ambient `config` module, an explicit
`Config` value, and, where the source reads a fetched network result, an
explicit `Option` argument with `none` standing for a transport error) to a
trace/result value recording the observable behaviour: which API requests
were issued, whether the `changed` flag was set, the final contents of the
local `labels` array, and how the call terminated (normal return, early
`debug` return, or a thrown error).
-/

set_option autoImplicit false

/-- Ambient configuration (`require('./config')`).  String-valued entries are
`Option String` so that an unconfigured (JS `undefined`) entry is `none`;
JS truthiness of a string is "present and non-empty". -/
structure Config where
  user : String
  repo : String
  labelNeedsReview : String
  labelReviewed : String
  instructionsComment : String
  reviewsNeeded : Nat
  botUser : Option String
  botPassword : Option String
  oauth2key : Option String
  oauth2secret : Option String
deriving DecidableEq, Repr

/-- JS truthiness of a possibly-undefined string: `undefined` and `""` are
falsy, every other string is truthy. -/
def truthyStr : Option String → Bool
  | none => false
  | some s => !s.isEmpty

/-- Result of `_authenticate` (bot.js lines 10-28): either the thrown
`Error('Fatal: No username/password or no Oauth2 key/secret configured!')`,
or the credentials passed to `github.authenticate`. -/
inductive AuthResult where
  | fatalError
  | oauth (key secret : String)
  | basic (user password : String)
deriving DecidableEq, Repr

/-- `_authenticate` (bot.js lines 10-28).  The guard is the source's
`(!config.botUser || !config.botPassword) || (!config.oauth2key || !config.oauth2secret)`
verbatim: it throws unless BOTH credential sets are configured, which makes
the `basic` branch of the subsequent conditional unreachable. -/
def _authenticate (cfg : Config) : AuthResult :=
  if (!truthyStr cfg.botUser || !truthyStr cfg.botPassword)
      || (!truthyStr cfg.oauth2key || !truthyStr cfg.oauth2secret) then
    AuthResult.fatalError
  else if truthyStr cfg.oauth2key && truthyStr cfg.oauth2secret then
    AuthResult.oauth (cfg.oauth2key.getD "") (cfg.oauth2secret.getD "")
  else
    AuthResult.basic (cfg.botUser.getD "") (cfg.botPassword.getD "")

/-- How a call to `updateLabels` terminated.
`paramError` is the early `return debug('labelPullRequest: insufficient parameters')`;
`removeAtError` is the `TypeError` thrown because `Array.prototype.removeAt`
does not exist (bot.js lines 201 and 209);
`credsError` is the `Error` thrown by `_authenticate` when credentials are
missing. -/
inductive Termination where
  | normal
  | paramError
  | removeAtError
  | credsError
deriving DecidableEq, Repr

/-- Observable trace of one `updateLabels` call.
`working` is the contents of the local `labels` array when execution stopped
(throws included: `removeAt` throws before mutating anything);
`changed` is the value of the `changed` flag when execution stopped;
`authCalls` counts completed `github.authenticate` invocations;
`editRequests` lists the label lists submitted to `github.issues.edit`
(the source submits `JSON.stringify(labels)`; we record the list itself).
The edit-response continuation (the user callback) can fire only if some
edit request was issued, so `editRequests = []` entails that no continuation
is ever invoked. -/
structure UpdateTrace where
  term : Termination
  changed : Bool
  working : List String
  authCalls : Nat
  editRequests : List (List String)
deriving DecidableEq, Repr

/-- Line 193 of bot.js: `labels = (!labels || !labels.length) ? [] : labels`.
An absent (`none`) or empty labels argument is replaced by a fresh empty
array; otherwise the local variable keeps aliasing the caller's array. -/
def normLabels : Option (List String) → List String
  | none => []
  | some l => if l.isEmpty then [] else l

/-- Pair-1 else-branch result (bot.js lines 203-206): when approved and the
reviewed label is absent, push it. -/
def addReviewed (cfg : Config) (ap : Bool) (ls : List String) : List String :=
  if ap && !ls.contains cfg.labelReviewed then ls ++ [cfg.labelReviewed] else ls

/-- Whether pair-1's else-branch fired (set `changed = true`). -/
def addedReviewed (cfg : Config) (ap : Bool) (ls : List String) : Bool :=
  ap && !ls.contains cfg.labelReviewed

/-- Pair-2 else-branch result (bot.js lines 211-214): when not approved and
the needs-review label is absent, push it. -/
def addNeedsReview (cfg : Config) (ap : Bool) (ls : List String) : List String :=
  if !ap && !ls.contains cfg.labelNeedsReview then ls ++ [cfg.labelNeedsReview] else ls

/-- Whether pair-2's else-branch fired (set `changed = true`). -/
def addedNeedsReview (cfg : Config) (ap : Bool) (ls : List String) : Bool :=
  !ap && !ls.contains cfg.labelNeedsReview

/-- `updateLabels` (bot.js lines 185-232), embedded step by step:
normalize the labels argument (line 193); reject a non-boolean `approved`
(modelled by `Option Bool`, `none` standing for any JS value that is neither
strictly `true` nor strictly `false`) or a falsy PR number (modelled by
`Nat`, `0` standing for an absent/falsy number) (line 195); run the two
if/else-if branch pairs (lines 200-214), where both removal branches call
the nonexistent `labels.removeAt` and therefore throw a `TypeError` before
mutating the array or setting `changed`; finally, if `changed`, call
`_authenticate` (which may itself throw) and submit the whole label list to
`github.issues.edit` (lines 216-231). -/
def updateLabels (cfg : Config) (prNumber : Nat) (approved : Option Bool)
    (labels0 : Option (List String)) : UpdateTrace :=
  match approved with
  | none => ⟨Termination.paramError, false, normLabels labels0, 0, []⟩
  | some ap =>
    if prNumber = 0 then ⟨Termination.paramError, false, normLabels labels0, 0, []⟩
    else
      let ls := normLabels labels0
      if ap && ls.contains cfg.labelNeedsReview then
        ⟨Termination.removeAtError, false, ls, 0, []⟩
      else
        let l1 := addReviewed cfg ap ls
        if !ap && l1.contains cfg.labelReviewed then
          ⟨Termination.removeAtError, addedReviewed cfg ap ls, l1, 0, []⟩
        else
          let l2 := addNeedsReview cfg ap l1
          let ch := addedReviewed cfg ap ls || addedNeedsReview cfg ap l1
          if ch then
            match _authenticate cfg with
            | AuthResult.fatalError => ⟨Termination.credsError, ch, l2, 0, []⟩
            | _ => ⟨Termination.normal, ch, l2, 1, [l2]⟩
          else
            ⟨Termination.normal, ch, l2, 0, []⟩

/-- The label list an `updateLabels` call hands to a subsequent call: only a
normally-returning call yields one (a thrown call produces nothing). -/
def producedLabels (t : UpdateTrace) : Option (List String) :=
  if t.term = Termination.normal then some t.working else none

/-- Contents of the caller's own labels array after an `updateLabels` call
(bot.js line 193): an empty caller array is replaced by a fresh `[]`, so the
caller's array is never touched; a non-empty caller array is aliased by the
local variable, so every `push` mutates it in place and the caller observes
the final `working` contents. -/
def callerArrayAfter (cfg : Config) (prNumber : Nat) (approved : Option Bool)
    (callerLabels : List String) : List String :=
  if callerLabels.isEmpty then callerLabels
  else (updateLabels cfg prNumber approved (some callerLabels)).working

/-- A concrete, fully-configured `Config` used for witnesses. -/
def defaultConfig : Config where
  user := "felixrieseberg"
  repo := "case-study"
  labelNeedsReview := "needs-review"
  labelReviewed := "reviewed"
  instructionsComment := "Thanks for the case study!"
  reviewsNeeded := 1
  botUser := some "case-study-bot"
  botPassword := some "hunter2"
  oauth2key := some "oauthkey"
  oauth2secret := some "oauthsecret"

/-- Whether `lead` is an initial segment of `l` (character-list version,
used to define substring containment). -/
def listLead : List Char → List Char → Bool
  | [], _ => true
  | _ :: _, [] => false
  | a :: as, b :: bs => a == b && listLead as bs

/-- Whether `needle` occurs as a contiguous run somewhere in `hay`. -/
def listHas (needle : List Char) : List Char → Bool
  | [] => needle.isEmpty
  | c :: t => listLead needle (c :: t) || listHas needle t

/-- Whether `needle` occurs as a contiguous substring of `hay`. -/
def strHas (hay needle : String) : Bool :=
  listHas needle.toList hay.toList

/-- JavaScript `s.slice(b, e)` for `0 ≤ b ≤ e`: the characters at indices
`b, b+1, ..., e-1` (clamped to the string's length). -/
def jsSlice (s : String) (b e : Nat) : String :=
  String.mk ((s.toList.drop b).take (e - b))

/-- Whitespace characters removed by `String.prototype.trim` (the ASCII
ones: space, tab, line feed, carriage return, vertical tab, form feed). -/
def isJsSpace (c : Char) : Bool :=
  c == ' ' || c == '\t' || c == '\n' || c == '\r' || c == '\x0b' || c == '\x0c'

/-- Drop the leading run of whitespace characters. -/
def dropLeadSpace : List Char → List Char
  | [] => []
  | c :: t => if isJsSpace c then dropLeadSpace t else c :: t

/-- JavaScript `s.trim()`: remove leading and trailing whitespace. -/
def jsTrim (s : String) : String :=
  String.mk ((dropLeadSpace (dropLeadSpace s.toList).reverse).reverse)

/-- One comment-body comparison of `checkForInstructionsComment` (bot.js
line 166): `body.slice(1, 30).trim() === config.instructionsComment.slice(1, 30).trim()`.
Note the slice starts at index 1, so the FIRST character of each string is
skipped and at most 29 characters are compared. -/
def instructionsMatches (cfg : Config) (body : String) : Bool :=
  jsTrim (jsSlice body 1 30) == jsTrim (jsSlice cfg.instructionsComment 1 30)

/-- The `for`/`break` loop of `checkForInstructionsComment` (bot.js lines
165-170): `instructed` is reassigned to each comparison in turn and the loop
breaks at the first `true`, so the final value is `true` exactly when some
body matches, `false` otherwise. -/
def scanInstructed (cfg : Config) : List String → Bool
  | [] => false
  | b :: rest => if instructionsMatches cfg b then true else scanInstructed cfg rest

/-- `checkForInstructionsComment` (bot.js lines 149-176).  `fetched` is the
result of `github.issues.getComments` as a list of comment bodies, `none`
standing for a transport error.  The result is the value passed to the
callback; `none` means the callback is never invoked (on fetch error the
function only logs). -/
def checkForInstructionsComment (cfg : Config) (fetched : Option (List String)) :
    Option Bool :=
  match fetched with
  | none => none
  | some bodies => some (scanInstructed cfg bodies)

/-- The comment matcher as claim C5 and spec §8 describe it: the trimmed
FIRST-30-character prefixes of body and template are compared.  Stated only
to be compared against the source's `instructionsMatches`, which instead
compares `slice(1, 30)` of each (skipping the first character). -/
def first30Matches (body template : String) : Bool :=
  jsTrim (jsSlice body 0 30) == jsTrim (jsSlice template 0 30)

/-- The approval regex `/(LGTM)|(Looks good to me!)|w+?/` of
`checkForApprovalComments` (bot.js line 122), applied via `RegExp.test`:
the test succeeds iff the body contains `"LGTM"`, or contains
`"Looks good to me!"`, or contains the character `w` (the third alternative
is the literal `w+?` — not `\w+?` — and lazily matches a single `w`). -/
def lgtmTest (body : String) : Bool :=
  strHas body "LGTM" || strHas body "Looks good to me!" || strHas body "w"

/-- The counting loop of `checkForApprovalComments` (bot.js lines 130-134):
`if (result[i].body && lgtm.test(result[i].body)) approvedCount++` — an
empty (falsy) body never counts. -/
def approvedCountLoop : List String → Nat
  | [] => 0
  | b :: rest => (if !b.isEmpty && lgtmTest b then 1 else 0) + approvedCountLoop rest

/-- `checkForApprovalComments` (bot.js lines 107-142).  A falsy PR number
aborts with a logged diagnostic before any fetch; a fetch error (`none`)
only logs; otherwise the callback receives
`approvedCount >= config.reviewsNeeded`.  The returned `Option Bool` is the
value passed to the callback, `none` meaning no callback is invoked. -/
def checkForApprovalComments (cfg : Config) (prNumber : Nat)
    (fetched : Option (List String)) : Option Bool :=
  if prNumber = 0 then none
  else
    match fetched with
    | none => none
    | some bodies => some (decide (approvedCountLoop bodies ≥ cfg.reviewsNeeded))

/-- How a call to `merge` terminated: `credsError` is the `Error` thrown by
`_authenticate`; `namespaceTypeError` is the `TypeError` thrown by line 271,
which applies `github.pullRequests` itself as a function.  `pullRequests` is
the endpoint namespace object — line 39 of the same file calls
`github.pullRequests.getAll` — and applying a non-function object throws, so
no request of any kind is issued and the continuation never runs. -/
inductive MergeTermination where
  | credsError
  | namespaceTypeError
deriving DecidableEq, Repr

/-- Observable trace of one `merge` call (bot.js lines 265-283):
`authCalls` counts completed `github.authenticate` invocations and
`mergeRequests` lists the PR numbers for which a merge-pull-request API
call was issued. -/
structure MergeTrace where
  term : MergeTermination
  authCalls : Nat
  mergeRequests : List Nat
  namespaceCallAttempts : List Nat
deriving DecidableEq, Repr

/-- `merge` (bot.js lines 265-283): `_authenticate()` first (throwing if
credentials are missing), then `github.pullRequests({user, repo, number}, cb)`
— a call to the namespace object, not to any merge endpoint — which throws a
`TypeError`; no merge request is ever issued.  `namespaceCallAttempts`
records the PR number of the attempted (and throwing) line-271 call. -/
def merge (cfg : Config) (prNumber : Nat) : MergeTrace :=
  match _authenticate cfg with
  | AuthResult.fatalError => ⟨MergeTermination.credsError, 0, [], []⟩
  | _ => ⟨MergeTermination.namespaceTypeError, 1, [], [prNumber]⟩

/-- `defaultConfig` with only basic credentials configured (no OAuth2). -/
def basicOnlyConfig : Config :=
  { defaultConfig with oauth2key := none, oauth2secret := none }

/-- `defaultConfig` with a review threshold of 2 (claim C6's scenario). -/
def twoReviewsConfig : Config :=
  { defaultConfig with reviewsNeeded := 2 }

/-- `defaultConfig` with the three-character instructions template `"ABC"`
(claim C5's counterexample scenario). -/
def abcInstructionsConfig : Config :=
  { defaultConfig with instructionsComment := "ABC" }

/-- The `for`/`break` scan of `checkForInstructionsComment` computes exactly
`List.any` of the per-body comparison. -/
theorem scanInstructed_eq_any (cfg : Config) (bodies : List String) :
    scanInstructed cfg bodies = bodies.any (instructionsMatches cfg) := by
  induction bodies with
  | nil => rfl
  | cons b rest ih =>
    by_cases h : instructionsMatches cfg b <;> simp [scanInstructed, h, ih]

/-- The counting loop of `checkForApprovalComments` computes exactly
`List.countP` of the per-body test. -/
theorem approvedCountLoop_eq_countP (bodies : List String) :
    approvedCountLoop bodies = bodies.countP (fun b => !b.isEmpty && lgtmTest b) := by
  induction bodies with
  | nil => rfl
  | cons b rest ih =>
    simp [approvedCountLoop, List.countP_cons, ih, Nat.add_comm]

/-- Normalization is the identity on a non-empty labels argument. -/
theorem normLabels_some (l : List String) (h : l ≠ []) : normLabels (some l) = l := by
  cases l with
  | nil => exact absurd rfl h
  | cons a t => rfl

/-- Case lemma: `approved = true` with the needs-review label present hits
the pair-1 removal branch and throws. -/
theorem updateLabels_true_crash (cfg : Config) (pr : Nat) (l0 : Option (List String))
    (hpr : pr ≠ 0) (hm : cfg.labelNeedsReview ∈ normLabels l0) :
    updateLabels cfg pr (some true) l0
      = ⟨Termination.removeAtError, false, normLabels l0, 0, []⟩ := by
  simp [updateLabels, hpr, hm]

/-- Case lemma: `approved = false` with the reviewed label present hits the
pair-2 removal branch and throws. -/
theorem updateLabels_false_crash (cfg : Config) (pr : Nat) (l0 : Option (List String))
    (hpr : pr ≠ 0) (hm : cfg.labelReviewed ∈ normLabels l0) :
    updateLabels cfg pr (some false) l0
      = ⟨Termination.removeAtError, false, normLabels l0, 0, []⟩ := by
  simp [updateLabels, addReviewed, addedReviewed, hpr, hm]

/-- Case lemma: `approved = true` with needs-review absent and reviewed
present is the no-op path — no branch fires, no authentication, no edit. -/
theorem updateLabels_true_noop (cfg : Config) (pr : Nat) (l0 : Option (List String))
    (hpr : pr ≠ 0) (h1 : cfg.labelNeedsReview ∉ normLabels l0)
    (h2 : cfg.labelReviewed ∈ normLabels l0) :
    updateLabels cfg pr (some true) l0
      = ⟨Termination.normal, false, normLabels l0, 0, []⟩ := by
  simp [updateLabels, addReviewed, addedReviewed, addNeedsReview, addedNeedsReview,
    hpr, h1, h2]

/-- Case lemma: `approved = false` with reviewed absent and needs-review
present is the no-op path. -/
theorem updateLabels_false_noop (cfg : Config) (pr : Nat) (l0 : Option (List String))
    (hpr : pr ≠ 0) (h1 : cfg.labelReviewed ∉ normLabels l0)
    (h2 : cfg.labelNeedsReview ∈ normLabels l0) :
    updateLabels cfg pr (some false) l0
      = ⟨Termination.normal, false, normLabels l0, 0, []⟩ := by
  simp [updateLabels, addReviewed, addedReviewed, addNeedsReview, addedNeedsReview,
    hpr, h1, h2]

/-- Case lemma: `approved = true` with both labels absent pushes the
reviewed label and, with credentials configured, issues exactly one edit
with the whole modified list. -/
theorem updateLabels_true_push (cfg : Config) (pr : Nat) (l0 : Option (List String))
    (hpr : pr ≠ 0) (h1 : cfg.labelNeedsReview ∉ normLabels l0)
    (h2 : cfg.labelReviewed ∉ normLabels l0)
    (hauth : _authenticate cfg ≠ AuthResult.fatalError) :
    updateLabels cfg pr (some true) l0
      = ⟨Termination.normal, true, normLabels l0 ++ [cfg.labelReviewed], 1,
          [normLabels l0 ++ [cfg.labelReviewed]]⟩ := by
  simp only [updateLabels, addReviewed, addedReviewed, addNeedsReview, addedNeedsReview]
  rw [if_neg hpr]
  cases hA : _authenticate cfg <;> simp_all

/-- Case lemma: `approved = false` with both labels absent pushes the
needs-review label and, with credentials configured, issues exactly one
edit with the whole modified list. -/
theorem updateLabels_false_push (cfg : Config) (pr : Nat) (l0 : Option (List String))
    (hpr : pr ≠ 0) (h1 : cfg.labelReviewed ∉ normLabels l0)
    (h2 : cfg.labelNeedsReview ∉ normLabels l0)
    (hauth : _authenticate cfg ≠ AuthResult.fatalError) :
    updateLabels cfg pr (some false) l0
      = ⟨Termination.normal, true, normLabels l0 ++ [cfg.labelNeedsReview], 1,
          [normLabels l0 ++ [cfg.labelNeedsReview]]⟩ := by
  simp only [updateLabels, addReviewed, addedReviewed, addNeedsReview, addedNeedsReview]
  rw [if_neg hpr]
  cases hA : _authenticate cfg <;> simp_all

/-- Case lemma: a push branch fired but `_authenticate` threw — `changed`
is set, the array was mutated, and yet no edit request is issued
(`approved = true` case). -/
theorem updateLabels_true_push_noauth (cfg : Config) (pr : Nat)
    (l0 : Option (List String)) (hpr : pr ≠ 0)
    (h1 : cfg.labelNeedsReview ∉ normLabels l0)
    (h2 : cfg.labelReviewed ∉ normLabels l0)
    (hauth : _authenticate cfg = AuthResult.fatalError) :
    updateLabels cfg pr (some true) l0
      = ⟨Termination.credsError, true, normLabels l0 ++ [cfg.labelReviewed], 0, []⟩ := by
  simp [updateLabels, addReviewed, addedReviewed, addNeedsReview, addedNeedsReview,
    hpr, h1, h2, hauth]

/-- Case lemma: a push branch fired but `_authenticate` threw
(`approved = false` case). -/
theorem updateLabels_false_push_noauth (cfg : Config) (pr : Nat)
    (l0 : Option (List String)) (hpr : pr ≠ 0)
    (h1 : cfg.labelReviewed ∉ normLabels l0)
    (h2 : cfg.labelNeedsReview ∉ normLabels l0)
    (hauth : _authenticate cfg = AuthResult.fatalError) :
    updateLabels cfg pr (some false) l0
      = ⟨Termination.credsError, true, normLabels l0 ++ [cfg.labelNeedsReview], 0, []⟩ := by
  simp [updateLabels, addReviewed, addedReviewed, addNeedsReview, addedNeedsReview,
    hpr, h1, h2, hauth]

/-- Claim C1 (code_bug evidence): at the claim's input — `approved = true`,
current labels exactly `["needs-review"]` — `updateLabels` does NOT issue the
single edit with label list `[]` that the claim (and spec §8) describes: line
201 calls the nonexistent `labels.removeAt`, so the call throws a `TypeError`
with zero authentications, zero edit requests, and the labels array still
`["needs-review"]`; the continuation is never invoked. -/
theorem claimC1_removal_input_throws :
    updateLabels defaultConfig 1 (some true) (some ["needs-review"])
      = ⟨Termination.removeAtError, false, ["needs-review"], 0, []⟩ := by decide

/-- Claim C3 (counterexample): the claim describes re-applying the delta
computation to "the label list produced by a first application", and in its
removal case says the second application adds the opposite label.  At
`approved = false`, labels `["reviewed"]` the first application produces no
label list at all: it aborts with the `removeAt` `TypeError`, so the claimed
two-step behaviour is false at this input. -/
theorem claimC3_counterexample :
    producedLabels (updateLabels defaultConfig 1 (some false) (some ["reviewed"])) = none
    ∧ (updateLabels defaultConfig 1 (some false) (some ["reviewed"])).term
        = Termination.removeAtError := by decide

/-- Claim C5 (counterexample): with instructions template `"ABC"` and a
single fetched comment `"ZBC"`, the code fires the callback with `true`
(both `slice(1, 30)` values are `"BC"`), yet the comment's trimmed
first-30-character prefix `"ZBC"` differs from the template's `"ABC"` — so
the claim's "first-30-character prefix" characterisation of the match is
false at this input: the code ignores the first character of both strings. -/
theorem claimC5_counterexample :
    checkForInstructionsComment abcInstructionsConfig (some ["ZBC"]) = some true
    ∧ first30Matches "ZBC" abcInstructionsConfig.instructionsComment = false := by decide

/-- Claim C7 (code_bug evidence): with basic credentials configured and no
OAuth2 key/secret, `_authenticate` throws its fatal configuration error
instead of authenticating with the basic credentials — the guard on line 11
uses `||` between the two credential-set checks, so BOTH sets are required
and the basic branch of the conditional below it is unreachable. -/
theorem claimC7_basic_alone_rejected :
    _authenticate basicOnlyConfig = AuthResult.fatalError := by decide

/-- Claim C9 (code_bug evidence): `merge` authenticates (one completed
`github.authenticate` call) but issues no merge-pull-request API call at
all: line 271 applies the `github.pullRequests` namespace object itself as
a function (line 39 shows it is the object holding `getAll` etc.), which
throws a `TypeError`; the continuation never receives a merge result. -/
theorem claimC9_no_merge_request :
    merge defaultConfig 1
      = ⟨MergeTermination.namespaceTypeError, 1, [], [1]⟩ := by decide

/-- Claim C2: whenever a removal branch of `updateLabels` fires — `approved`
strictly `true` with the needs-review label present in the (normalized)
label list, or strictly `false` with the reviewed label present — the call
aborts with the `removeAt` `TypeError`: the labels array is left as it was,
`changed` is still `false`, and no authentication, no edit request and no
continuation happen. -/
theorem claimC2_removal_branches_throw (cfg : Config) (pr : Nat) (ap : Option Bool)
    (l0 : Option (List String)) (hpr : pr ≠ 0)
    (h : (ap = some true ∧ cfg.labelNeedsReview ∈ normLabels l0)
       ∨ (ap = some false ∧ cfg.labelReviewed ∈ normLabels l0)) :
    updateLabels cfg pr ap l0
      = ⟨Termination.removeAtError, false, normLabels l0, 0, []⟩ := by
  rcases h with ⟨rfl, hm⟩ | ⟨rfl, hm⟩
  · simp [updateLabels, hpr, hm]
  · simp [updateLabels, addReviewed, addedReviewed, hpr, hm]

/-- Witness for claim C2 at a concrete removal input. -/
theorem claimC2_witness :
    updateLabels defaultConfig 2 (some false) (some ["reviewed", "docs"])
      = ⟨Termination.removeAtError, false, normLabels (some ["reviewed", "docs"]), 0, []⟩ :=
  claimC2_removal_branches_throw defaultConfig 2 (some false) (some ["reviewed", "docs"])
    (by decide) (Or.inr ⟨rfl, by decide⟩)

/-- Claim C5 (amended): `checkForInstructionsComment` fires its callback
with `true` exactly when some fetched comment body's trimmed `slice(1, 30)`
— the characters at indices 1 through 29, i.e. the first character is
skipped — equals the template's trimmed `slice(1, 30)` (the first match
breaking the scan); when the fetch succeeds and no comment matches it fires
the callback with `false`; when the fetch fails no callback occurs at
all. -/
theorem claimC5_amended (cfg : Config) (bodies : List String) :
    checkForInstructionsComment cfg none = none
    ∧ (checkForInstructionsComment cfg (some bodies) = some true
        ↔ ∃ b ∈ bodies, instructionsMatches cfg b = true)
    ∧ (checkForInstructionsComment cfg (some bodies) = some false
        ↔ ∀ b ∈ bodies, instructionsMatches cfg b = false) := by
  refine ⟨rfl, ?_, ?_⟩
  · simp [checkForInstructionsComment, scanInstructed_eq_any, List.any_eq_true]
  · simp [checkForInstructionsComment, scanInstructed_eq_any, List.any_eq_false]

/-- Claim C6: `checkForApprovalComments` fires its callback with
`approved = (number of fetched comments whose non-empty body passes the
approval regex) >= config.reviewsNeeded`; empty or non-matching bodies do
not count.  Concretely, with a threshold of 2 the bodies
`["LGTM", "not helpful", "Looks good to me!"]` yield `true` (two of the
three match) and `["LGTM"]` alone yields `false`. -/
theorem claimC6_approval_threshold (cfg : Config) (pr : Nat) (bodies : List String)
    (hpr : pr ≠ 0) :
    checkForApprovalComments cfg pr (some bodies)
      = some (decide (bodies.countP (fun b => !b.isEmpty && lgtmTest b)
          ≥ cfg.reviewsNeeded))
    ∧ checkForApprovalComments twoReviewsConfig pr
        (some ["LGTM", "not helpful", "Looks good to me!"]) = some true
    ∧ checkForApprovalComments twoReviewsConfig pr (some ["LGTM"]) = some false := by
  refine ⟨?_, ?_, ?_⟩
  · simp [checkForApprovalComments, hpr, approvedCountLoop_eq_countP]
  · simp only [checkForApprovalComments, if_neg hpr]
    decide
  · simp only [checkForApprovalComments, if_neg hpr]
    decide

/-- Witness for claim C6 at concrete inputs. -/
theorem claimC6_witness :
    checkForApprovalComments defaultConfig 1 (some ["LGTM"])
      = some (decide (List.countP (fun b => !b.isEmpty && lgtmTest b) ["LGTM"]
          ≥ defaultConfig.reviewsNeeded))
    ∧ checkForApprovalComments twoReviewsConfig 1
        (some ["LGTM", "not helpful", "Looks good to me!"]) = some true
    ∧ checkForApprovalComments twoReviewsConfig 1 (some ["LGTM"]) = some false :=
  claimC6_approval_threshold defaultConfig 1 ["LGTM"] (by decide)

/-- Claim C8: `updateLabels` aborts synchronously with only the logged
diagnostic — no authentication, no edit request, hence no continuation —
whenever the PR number is falsy (`0` models absent/falsy) or `approved` is
not strictly a boolean (`none` models any such JS value); and an absent
labels argument does not abort: it behaves exactly like an empty list and
the call proceeds past the parameter check. -/
theorem claimC8_param_validation (cfg : Config) (pr : Nat) (ap : Option Bool)
    (l0 : Option (List String)) (b : Bool) :
    ((pr = 0 ∨ ap = none) →
        updateLabels cfg pr ap l0
          = ⟨Termination.paramError, false, normLabels l0, 0, []⟩)
    ∧ (pr ≠ 0 →
        updateLabels cfg pr (some b) none = updateLabels cfg pr (some b) (some [])
        ∧ (updateLabels cfg pr (some b) none).term ≠ Termination.paramError) := by
  constructor
  · rintro (rfl | rfl)
    · cases ap <;> simp [updateLabels]
    · simp [updateLabels]
  · intro hpr
    refine ⟨rfl, ?_⟩
    cases b <;>
      simp [updateLabels, hpr, normLabels, addReviewed, addedReviewed,
        addNeedsReview, addedNeedsReview] <;>
      cases hA : _authenticate cfg <;> simp [hA]

/-- Witness for claim C8: the abort at a falsy PR number, and the
normalization of an absent labels argument at a valid PR number. -/
theorem claimC8_witness :
    updateLabels defaultConfig 0 (some true) (some ["docs"])
      = ⟨Termination.paramError, false, normLabels (some ["docs"]), 0, []⟩
    ∧ (updateLabels defaultConfig 3 (some true) none
        = updateLabels defaultConfig 3 (some true) (some [])
      ∧ (updateLabels defaultConfig 3 (some true) none).term
          ≠ Termination.paramError) :=
  ⟨(claimC8_param_validation defaultConfig 0 (some true) (some ["docs"]) true).1
      (Or.inl rfl),
   (claimC8_param_validation defaultConfig 3 (some true) none true).2 (by decide)⟩

/-- Claim C4: with credentials configured (so that `_authenticate` does not
itself throw), an edit request is issued if and only if the `changed` flag
was set by some branch — in particular the parameter-error, no-op, and
`removeAt`-crash paths (where the throw happens before `changed = true`)
issue nothing; and at the claim's concrete instance, `approved = true` with
labels exactly `[reviewed]`, the call returns normally with zero
authentications, zero edit requests, and hence no continuation. -/
theorem claimC4_edit_iff_changed (cfg : Config) (pr : Nat) (ap : Option Bool)
    (l0 : Option (List String)) (hauth : _authenticate cfg ≠ AuthResult.fatalError) :
    ((updateLabels cfg pr ap l0).editRequests ≠ []
        ↔ (updateLabels cfg pr ap l0).changed = true)
    ∧ (pr ≠ 0 → cfg.labelNeedsReview ≠ cfg.labelReviewed →
        updateLabels cfg pr (some true) (some [cfg.labelReviewed])
          = ⟨Termination.normal, false, [cfg.labelReviewed], 0, []⟩) := by
  constructor
  · cases ap with
    | none => simp [updateLabels]
    | some b =>
      by_cases hpr : pr = 0
      · subst hpr; simp [updateLabels]
      · cases b
        · by_cases hm : cfg.labelReviewed ∈ normLabels l0
          · rw [updateLabels_false_crash cfg pr l0 hpr hm]; simp
          · by_cases h2 : cfg.labelNeedsReview ∈ normLabels l0
            · rw [updateLabels_false_noop cfg pr l0 hpr hm h2]; simp
            · rw [updateLabels_false_push cfg pr l0 hpr hm h2 hauth]; simp
        · by_cases hm : cfg.labelNeedsReview ∈ normLabels l0
          · rw [updateLabels_true_crash cfg pr l0 hpr hm]; simp
          · by_cases h2 : cfg.labelReviewed ∈ normLabels l0
            · rw [updateLabels_true_noop cfg pr l0 hpr hm h2]; simp
            · rw [updateLabels_true_push cfg pr l0 hpr hm h2 hauth]; simp
  · intro hpr hne
    have h1 : cfg.labelNeedsReview ∉ normLabels (some [cfg.labelReviewed]) := by
      simp [normLabels, hne]
    have h2 : cfg.labelReviewed ∈ normLabels (some [cfg.labelReviewed]) := by
      simp [normLabels]
    have h := updateLabels_true_noop cfg pr (some [cfg.labelReviewed]) hpr h1 h2
    simpa [normLabels] using h

/-- Witness for claim C4 at the concrete instance from the spec. -/
theorem claimC4_witness :
    ((updateLabels defaultConfig 1 (some true) (some ["reviewed"])).editRequests ≠ []
        ↔ (updateLabels defaultConfig 1 (some true) (some ["reviewed"])).changed = true)
    ∧ updateLabels defaultConfig 1 (some true) (some [defaultConfig.labelReviewed])
        = ⟨Termination.normal, false, [defaultConfig.labelReviewed], 0, []⟩ :=
  ⟨(claimC4_edit_iff_changed defaultConfig 1 (some true) (some ["reviewed"])
      (by decide)).1,
   (claimC4_edit_iff_changed defaultConfig 1 (some true) (some ["reviewed"])
      (by decide)).2 (by decide) (by decide)⟩

/-- Claim C3 (amended): when a first application of `updateLabels` completes
normally — which excludes every removal case, since the removal branches
throw the `removeAt` `TypeError` instead of producing a label list — a
second application with the same `approved` value to the produced label list
computes an empty delta: it returns normally with `changed = false`, no
authentication and no edit.  The claimed one-step asymmetry (first removes,
second adds the opposite label, third is empty) is unreachable in this code
because every removal throws. -/
theorem claimC3_amended (cfg : Config) (pr : Nat) (ap : Bool) (L : List String)
    (hpr : pr ≠ 0) (hne : cfg.labelNeedsReview ≠ cfg.labelReviewed)
    (hnorm : (updateLabels cfg pr (some ap) (some L)).term = Termination.normal) :
    updateLabels cfg pr (some ap)
        (some ((updateLabels cfg pr (some ap) (some L)).working))
      = ⟨Termination.normal, false,
          (updateLabels cfg pr (some ap) (some L)).working, 0, []⟩ := by
  cases ap
  · by_cases hm : cfg.labelReviewed ∈ normLabels (some L)
    · rw [updateLabels_false_crash cfg pr (some L) hpr hm] at hnorm
      simp at hnorm
    · by_cases h2 : cfg.labelNeedsReview ∈ normLabels (some L)
      · rw [updateLabels_false_noop cfg pr (some L) hpr hm h2]
        have hXne : normLabels (some L) ≠ [] := List.ne_nil_of_mem h2
        have h := updateLabels_false_noop cfg pr (some (normLabels (some L))) hpr
          (by rwa [normLabels_some _ hXne]) (by rwa [normLabels_some _ hXne])
        rwa [normLabels_some _ hXne] at h
      · by_cases hA : _authenticate cfg = AuthResult.fatalError
        · rw [updateLabels_false_push_noauth cfg pr (some L) hpr hm h2 hA] at hnorm
          simp at hnorm
        · rw [updateLabels_false_push cfg pr (some L) hpr hm h2 hA]
          have hXne : normLabels (some L) ++ [cfg.labelNeedsReview] ≠ [] := by simp
          have h1 : cfg.labelReviewed
              ∉ normLabels (some (normLabels (some L) ++ [cfg.labelNeedsReview])) := by
            rw [normLabels_some _ hXne]
            simp [hm, Ne.symm hne]
          have h2m : cfg.labelNeedsReview
              ∈ normLabels (some (normLabels (some L) ++ [cfg.labelNeedsReview])) := by
            rw [normLabels_some _ hXne]; simp
          have h := updateLabels_false_noop cfg pr
            (some (normLabels (some L) ++ [cfg.labelNeedsReview])) hpr h1 h2m
          rwa [normLabels_some _ hXne] at h
  · by_cases hm : cfg.labelNeedsReview ∈ normLabels (some L)
    · rw [updateLabels_true_crash cfg pr (some L) hpr hm] at hnorm
      simp at hnorm
    · by_cases h2 : cfg.labelReviewed ∈ normLabels (some L)
      · rw [updateLabels_true_noop cfg pr (some L) hpr hm h2]
        have hXne : normLabels (some L) ≠ [] := List.ne_nil_of_mem h2
        have h := updateLabels_true_noop cfg pr (some (normLabels (some L))) hpr
          (by rwa [normLabels_some _ hXne]) (by rwa [normLabels_some _ hXne])
        rwa [normLabels_some _ hXne] at h
      · by_cases hA : _authenticate cfg = AuthResult.fatalError
        · rw [updateLabels_true_push_noauth cfg pr (some L) hpr hm h2 hA] at hnorm
          simp at hnorm
        · rw [updateLabels_true_push cfg pr (some L) hpr hm h2 hA]
          have hXne : normLabels (some L) ++ [cfg.labelReviewed] ≠ [] := by simp
          have h1 : cfg.labelNeedsReview
              ∉ normLabels (some (normLabels (some L) ++ [cfg.labelReviewed])) := by
            rw [normLabels_some _ hXne]
            simp [hm, hne]
          have h2m : cfg.labelReviewed
              ∈ normLabels (some (normLabels (some L) ++ [cfg.labelReviewed])) := by
            rw [normLabels_some _ hXne]; simp
          have h := updateLabels_true_noop cfg pr
            (some (normLabels (some L) ++ [cfg.labelReviewed])) hpr h1 h2m
          rwa [normLabels_some _ hXne] at h

/-- Witness for claim C3's amended statement: a first application that adds
the reviewed label, then a second application that computes an empty
delta. -/
theorem claimC3_witness :
    updateLabels defaultConfig 1 (some true)
        (some ((updateLabels defaultConfig 1 (some true) (some ["docs"])).working))
      = ⟨Termination.normal, false,
          (updateLabels defaultConfig 1 (some true) (some ["docs"])).working, 0, []⟩ :=
  claimC3_amended defaultConfig 1 true ["docs"] (by decide) (by decide) (by decide)

/-- Claim C10 (counterexample): a call that computes a non-empty delta
without modifying the caller's array.  With `approved = false` and the
caller passing an empty array, one edit with `["needs-review"]` is issued,
but line 193 replaced the empty caller array with a fresh `[]` before the
push, so the caller's own array is still `[]` — unmodified — after the
call. -/
theorem claimC10_counterexample :
    (updateLabels defaultConfig 1 (some false) (some [])).editRequests
        = [["needs-review"]]
    ∧ callerArrayAfter defaultConfig 1 (some false) [] = [] := by decide

/-- Claim C10 (amended): when the caller passes a NON-EMPTY labels array,
`updateLabels` mutates that same array in place and submits it: whenever an
edit request is issued, the submitted list `M` is exactly the caller's
array's contents after the call, and differs from what the caller passed in
(one label was pushed onto it).  When the caller passes an empty (or
absent) array, line 193 substitutes a fresh empty array and the caller's
array is never touched. -/
theorem claimC10_amended (cfg : Config) (pr : Nat) (ap : Bool) (L M : List String)
    (hL : L ≠ []) (hedit : (updateLabels cfg pr (some ap) (some L)).editRequests = [M]) :
    callerArrayAfter cfg pr (some ap) L = M
    ∧ M ≠ L
    ∧ callerArrayAfter cfg pr (some ap) [] = [] := by
  have hcaller : callerArrayAfter cfg pr (some ap) L
      = (updateLabels cfg pr (some ap) (some L)).working := by
    cases L with
    | nil => exact absurd rfl hL
    | cons a t => simp [callerArrayAfter]
  by_cases hpr : pr = 0
  · subst hpr; simp [updateLabels] at hedit
  · cases ap
    · by_cases hm : cfg.labelReviewed ∈ normLabels (some L)
      · rw [updateLabels_false_crash cfg pr (some L) hpr hm] at hedit
        simp at hedit
      · by_cases h2 : cfg.labelNeedsReview ∈ normLabels (some L)
        · rw [updateLabels_false_noop cfg pr (some L) hpr hm h2] at hedit
          simp at hedit
        · by_cases hA : _authenticate cfg = AuthResult.fatalError
          · rw [updateLabels_false_push_noauth cfg pr (some L) hpr hm h2 hA] at hedit
            simp at hedit
          · rw [updateLabels_false_push cfg pr (some L) hpr hm h2 hA] at hedit
            rw [normLabels_some _ hL] at hedit
            simp only [List.cons.injEq, and_true] at hedit
            refine ⟨?_, ?_, by simp [callerArrayAfter]⟩
            · rw [hcaller, updateLabels_false_push cfg pr (some L) hpr hm h2 hA,
                normLabels_some _ hL, hedit]
            · rw [← hedit]
              intro hEq
              have := congrArg List.length hEq
              simp at this
    · by_cases hm : cfg.labelNeedsReview ∈ normLabels (some L)
      · rw [updateLabels_true_crash cfg pr (some L) hpr hm] at hedit
        simp at hedit
      · by_cases h2 : cfg.labelReviewed ∈ normLabels (some L)
        · rw [updateLabels_true_noop cfg pr (some L) hpr hm h2] at hedit
          simp at hedit
        · by_cases hA : _authenticate cfg = AuthResult.fatalError
          · rw [updateLabels_true_push_noauth cfg pr (some L) hpr hm h2 hA] at hedit
            simp at hedit
          · rw [updateLabels_true_push cfg pr (some L) hpr hm h2 hA] at hedit
            rw [normLabels_some _ hL] at hedit
            simp only [List.cons.injEq, and_true] at hedit
            refine ⟨?_, ?_, by simp [callerArrayAfter]⟩
            · rw [hcaller, updateLabels_true_push cfg pr (some L) hpr hm h2 hA,
                normLabels_some _ hL, hedit]
            · rw [← hedit]
              intro hEq
              have := congrArg List.length hEq
              simp at this

/-- Witness for claim C10's amended statement at a concrete non-empty
caller array. -/
theorem claimC10_witness :
    callerArrayAfter defaultConfig 1 (some true) ["docs"] = ["docs", "reviewed"]
    ∧ ["docs", "reviewed"] ≠ ["docs"]
    ∧ callerArrayAfter defaultConfig 1 (some true) [] = [] :=
  claimC10_amended defaultConfig 1 true ["docs"] ["docs", "reviewed"]
    (by decide) (by decide)
